import Mathlib

/-!
# Verification of the octoapp webhook core

Shallow embedding of the `octoapp` crate (GitHub App integration helper):
credential store (`src/config.rs`), webhook signature verification,
the two-pass webhook envelope parse (`src/ghhyper/mod.rs`,
`src/ghrocket.rs`), and the HTTP status mapping of the two framework
adapters.

Modelling conventions:
* Rust `String` / `&str` values are Lean `String`s; where Rust iterates
  `chars()` we work on `List Char`, and where it takes `as_bytes()` we
  use an explicit UTF-8 encoder (`strBytes`), so that Rust's byte-based
  `String::len` is `(strBytes s).length`.
* Byte sequences are `List Nat` (each entry < 256 at the points of use).
* External crates (hmac/sha2, jsonwebtoken PEM parsing, the filesystem,
  the serde_json text layer) are passed in as explicit function
  parameters: the code under verification is the crate's own logic, the
  collaborators stay abstract.
* JSON documents are modelled post-text-parse as a `Json` value tree;
  the serde derive semantics used by the crate (struct from object,
  unknown fields ignored, `u64` from a non-negative integer in range)
  are embedded explicitly.
-/

set_option autoImplicit false

namespace OctoApp

/-- Hex digit for a nibble, lowercase, as produced by `hex::encode`. -/
def hexDigit (n : Nat) : Char :=
  if n < 10 then Char.ofNat (48 + n) else Char.ofNat (87 + n)

/-- Hex encoding of one byte: high nibble then low nibble. -/
def hexByte (b : Nat) : List Char :=
  [hexDigit (b / 16), hexDigit (b % 16)]

/-- Lowercase hex encoding of a byte string, as `hex::encode` returns it. -/
def hexEncode (bytes : List Nat) : List Char :=
  (bytes.map hexByte).flatten

/-- UTF-8 encoding of a single character (the encoding Rust strings use). -/
def encodeChar (c : Char) : List Nat :=
  let n := c.toNat
  if n < 128 then [n]
  else if n < 2048 then
    [192 + n / 64, 128 + n % 64]
  else if n < 65536 then
    [224 + n / 4096, 128 + (n / 64) % 64, 128 + n % 64]
  else
    [240 + n / 262144, 128 + (n / 4096) % 64, 128 + (n / 64) % 64, 128 + n % 64]

/-- UTF-8 bytes of a string: Rust's `str::as_bytes`. -/
def strBytes (s : String) : List Nat :=
  (s.toList.map encodeChar).flatten

/-- Rust's `String::len` counts UTF-8 bytes, not characters. -/
def utf8Len (s : String) : Nat :=
  (strBytes s).length

/-- Opaque handle a parsed RSA PEM key becomes (`jsonwebtoken::EncodingKey`).
The PEM parser itself is an external collaborator; the handle only needs
decidable equality for the configuration-equality claims. -/
structure EncodingKey where
  key : String
  deriving DecidableEq, Repr

/-- Error taxonomy of the crate (`src/error.rs`, plus the octocrab variants
referenced by the adapters). Payload types of the wrapped foreign errors are
reduced to their display strings. -/
inductive OctoAppError where
  | MissingField (s : String)
  | SignatureError (s : String)
  | WebhookSecretError (s : String)
  | IoError (s : String)
  | OctocrabError (s : String)
  | OctocrabInstallationError (id : Nat)
  | JsonSerializationError (s : String)
  | JsonWebTokenError (s : String)
  | LimitExceeded
  | UnknownError
  deriving DecidableEq, Repr

/-- Built configuration (`OctoAppConfig` in `src/config.rs`). -/
structure OctoAppConfig where
  app_name : Option String
  app_id : Nat
  client_id : Option String
  client_secret : Option String
  client_key : Option EncodingKey
  webhook_secret : Option String
  deriving DecidableEq, Repr

/-- Builder (`OctoAppConfigBuilder` in `src/config.rs`); every field is
optional until `build` validates. The key path is kept as a plain string. -/
structure OctoAppConfigBuilder where
  app_name : Option String := none
  app_id : Option Nat := none
  client_id : Option String := none
  client_secret : Option String := none
  client_key : Option String := none
  client_key_path : Option String := none
  webhook_secret : Option String := none
  deriving DecidableEq, Repr

/-- Signature verification (`OctoAppConfig::webhook_signature_verification`):
with a configured secret and a presented value carrying the `sha256=` prefix,
HMAC-SHA256 the raw body with the secret's bytes, hex-encode, and compare
with the prefix-stripped remainder (`chars().skip(7)`); otherwise false.
The HMAC-SHA256 primitive (hmac/sha2 crates) is the `hmacSha256` parameter;
its key setup accepts keys of any length, so it is a total function. -/
def OctoAppConfig.webhook_signature_verification
    (hmacSha256 : List Nat → List Nat → List Nat)
    (self : OctoAppConfig) (data : List Nat) (signature : List Char) : Bool :=
  match self.webhook_secret with
  | some secret =>
    if "sha256=".toList.isPrefixOf signature then
      let hex_signature : List Char := signature.drop 7
      let hex_result : List Char := hexEncode (hmacSha256 (strBytes secret) data)
      hex_result == hex_signature
    else
      false
  | none => false

/-- Debug rendering of an `Option<String>` as Rust's `{:?}` prints it
(inner escaping elided; it plays no role in the claims). -/
def debugOptString : Option String → String
  | none => "None"
  | some s => "Some(\"" ++ s ++ "\")"

/-- Display implementation for `OctoAppConfig`: prints only the app name and
app id, never the secret-bearing fields. -/
def OctoAppConfig.display (self : OctoAppConfig) : String :=
  "OctoAppConfig \x7b app_name: " ++ debugOptString self.app_name
    ++ ", app_id: " ++ toString self.app_id ++ " \x7d"

/-- Client-key resolution inside `TryFrom<OctoAppConfigBuilder>`: a key-file
path wins and is read from the filesystem (`read` parameter) then PEM-parsed
(`pem` parameter); otherwise an inline key string is PEM-parsed; otherwise
there is no key. Read errors become `IoError`, parse errors
`JsonWebTokenError`. -/
def resolveClientKey (read : String → Except String String)
    (pem : String → Except String EncodingKey)
    (b : OctoAppConfigBuilder) : Except OctoAppError (Option EncodingKey) :=
  match b.client_key_path with
  | some client_key_path =>
    match read client_key_path with
    | .error e => .error (.IoError e)
    | .ok data =>
      match pem data with
      | .error e => .error (.JsonWebTokenError e)
      | .ok k => .ok (some k)
  | none =>
    match b.client_key with
    | some client_key =>
      match pem client_key with
      | .error e => .error (.JsonWebTokenError e)
      | .ok k => .ok (some k)
    | none => .ok none

/-- Build step (`TryFrom<OctoAppConfigBuilder> for OctoAppConfig`): resolve
the client key, then validate the webhook secret's byte length (hard error
below 8, `tracing::warn!` below 16 — warnings are returned alongside the
config), then require the app id. Order as in the source: a key failure
precedes the secret check, which precedes the `AppID` missing-field check. -/
def OctoAppConfigBuilder.tryFrom (read : String → Except String String)
    (pem : String → Except String EncodingKey)
    (b : OctoAppConfigBuilder) :
    Except OctoAppError (OctoAppConfig × List String) :=
  match resolveClientKey read pem b with
  | .error e => .error e
  | .ok client_key =>
    match b.webhook_secret with
    | some secret =>
      if utf8Len secret < 8 then
        .error (.WebhookSecretError
          ("Webhook secret is less than 8 characters: " ++ toString (utf8Len secret)))
      else
        let warnings : List String :=
          if utf8Len secret < 16 then ["Webhook secret is less than 16 characters"] else []
        match b.app_id with
        | none => .error (.MissingField "AppID")
        | some app_id =>
          .ok ({ app_name := b.app_name, app_id := app_id, client_id := b.client_id,
                 client_secret := b.client_secret, client_key := client_key,
                 webhook_secret := some secret }, warnings)
    | none =>
      match b.app_id with
      | none => .error (.MissingField "AppID")
      | some app_id =>
        .ok ({ app_name := b.app_name, app_id := app_id, client_id := b.client_id,
               client_secret := b.client_secret, client_key := client_key,
               webhook_secret := none }, [])

/-! ## JSON documents and the two-pass envelope parse -/

/-- JSON value tree, the post-text-parse shape `serde_json` hands to the
derived deserializers. Numbers are integers (no claim involves floats);
objects keep their field order. -/
inductive Json where
  | null
  | bool (b : Bool)
  | num (n : Int)
  | str (s : String)
  | arr (elems : List Json)
  | obj (fields : List (String × Json))

/-- Field lookup on a JSON object; any non-object has no fields. serde's
derived struct deserializer reads named fields this way and ignores the
rest (`deny_unknown_fields` is not used anywhere in the crate). -/
def jLookup : Json → String → Option Json
  | .obj fields, k => fields.lookup k
  | _, _ => none

/-- serde decode of a `u64` field: a non-negative integer below 2^64. -/
def asU64 : Json → Option Nat
  | .num (.ofNat m) => if m < 18446744073709551616 then some m else none
  | _ => none

/-- serde decode of a `String` field. -/
def asString : Json → Option String
  | .str s => some s
  | _ => none

/-- First pass of the webhook parse: the `ReqBlob`/`InsBlob` helper structs
decode only `installation.id` (a `u64`); absence or a shape mismatch at any
level makes the whole narrow decode fail. -/
def extractInstallId (j : Json) : Option Nat :=
  (jLookup j "installation").bind fun ins => (jLookup ins "id").bind asU64

/-- Envelope type pairing a decoded payload with the installation id, as the
adapters construct it (`WebHook(value, id)`). -/
structure WebHook (T : Type) where
  payload : T
  installation : Nat
  deriving DecidableEq, Repr

/-- Consumes the wrapper and returns the inner payload (`WebHook::into_inner`). -/
def WebHook.into_inner {T : Type} (w : WebHook T) : T :=
  w.payload

/-- Two-pass webhook parse (`parse_webhook` in `src/ghhyper/mod.rs`),
generic over the document representation and payload decoder exactly as the
source is generic over `T: DeserializeOwned`: the narrow installation-id
pass defaults to 0 on failure, then the full payload decode runs on the same
document; its error becomes `JsonSerializationError` via `OctoAppError::from`. -/
def parse_webhook {α T : Type} (extractId : α → Option Nat)
    (d : α → Except String T) (s : α) : Except OctoAppError (WebHook T) :=
  let id : Nat :=
    match extractId s with
    | some installation => installation
    | none => 0
  match d s with
  | .ok value => .ok ⟨value, id⟩
  | .error e => .error (.JsonSerializationError e)

/-- Rocket-side duplicate of the two-pass parse (`WebHook::from_str` in
`src/ghrocket.rs`); byte-for-byte the same algorithm as `parse_webhook`. -/
def WebHook.from_str {α T : Type} (extractId : α → Option Nat)
    (d : α → Except String T) (s : α) : Except OctoAppError (WebHook T) :=
  let id : Nat :=
    match extractId s with
    | some installation => installation
    | none => 0
  match d s with
  | .ok value => .ok ⟨value, id⟩
  | .error e => .error (.JsonSerializationError e)

/-! ## Event taxonomy (spec-modelled subset)

The crate declares `pub mod payloads;` but the payload definitions
themselves are not part of the sources at hand, so the variant shapes are
modelled from the spec: an untagged union of ~60 structurally-distinct
shapes, trial-decoded in declaration order with the first structural match
accepted, each shape a struct of required named fields with unknown fields
ignored. A representative subset in the enum's declaration order
(`Create`, `Installation`, `Ping`) is used, including one variant whose
payload itself carries `installation.id`. -/

/-- Modelled from the spec: the nested installation object carried by
installation-scoped payloads, with its `u64` id. -/
structure Installation where
  id : Nat
  deriving DecidableEq, Repr

/-- Modelled from the spec: the `CreateEvent` payload shape. -/
structure CreateEvent where
  ref : String
  ref_type : String
  master_branch : String
  deriving DecidableEq, Repr

/-- Modelled from the spec: the `InstallationEvent` payload shape. -/
structure InstallationEvent where
  action : String
  installation : Installation
  deriving DecidableEq, Repr

/-- Modelled from the spec: the `PingEvent` payload shape. -/
structure PingEvent where
  zen : String
  hook_id : Nat
  deriving DecidableEq, Repr

/-- Modelled from the spec: the untagged `Event` enum, restricted to a
representative subset of variants, kept in the declaration order of
`src/events/mod.rs` (`Create` before `Installation` before `Ping`). -/
inductive Event where
  | Create (e : CreateEvent)
  | Installation (e : InstallationEvent)
  | Ping (e : PingEvent)
  deriving DecidableEq, Repr

/-- Structural decode of the `CreateEvent` shape: all fields required. -/
def decodeCreateEvent (j : Json) : Option CreateEvent :=
  match jLookup j "ref" >>= asString, jLookup j "ref_type" >>= asString,
      jLookup j "master_branch" >>= asString with
  | some r, some t, some m => some ⟨r, t, m⟩
  | _, _, _ => none

/-- Structural decode of the nested `Installation` object. -/
def decodeInstallation (j : Json) : Option Installation :=
  (jLookup j "id" >>= asU64).map Installation.mk

/-- Structural decode of the `InstallationEvent` shape. -/
def decodeInstallationEvent (j : Json) : Option InstallationEvent :=
  match jLookup j "action" >>= asString,
      (jLookup j "installation").bind decodeInstallation with
  | some a, some ins => some ⟨a, ins⟩
  | _, _ => none

/-- Structural decode of the `PingEvent` shape. -/
def decodePingEvent (j : Json) : Option PingEvent :=
  match jLookup j "zen" >>= asString, jLookup j "hook_id" >>= asU64 with
  | some z, some h => some ⟨z, h⟩
  | _, _ => none

/-- Untagged decode of `Event`: trial-decode each variant shape in
declaration order, first structural match wins; if none matches, fail with
serde's untagged-enum error message. -/
def decodeEvent (j : Json) : Except String Event :=
  match decodeCreateEvent j with
  | some e => .ok (.Create e)
  | none =>
    match decodeInstallationEvent j with
    | some e => .ok (.Installation e)
    | none =>
      match decodePingEvent j with
      | some e => .ok (.Ping e)
      | none => .error "data did not match any variant of untagged enum Event"

/-- Serialization of the modelled payloads back to JSON (serde emits each
struct as an object of its fields, in declaration order). -/
def encodeEvent : Event → Json
  | .Create e => .obj [("ref", .str e.ref), ("ref_type", .str e.ref_type),
      ("master_branch", .str e.master_branch)]
  | .Installation e => .obj [("action", .str e.action),
      ("installation", .obj [("id", .num e.installation.id)])]
  | .Ping e => .obj [("zen", .str e.zen), ("hook_id", .num e.hook_id)]

/-- Well-formedness of an event value: its numeric fields fit in `u64`, as
every value of the Rust payload types does by construction. -/
def Event.wf : Event → Prop
  | .Create _ => True
  | .Installation e => e.installation.id < 18446744073709551616
  | .Ping e => e.hook_id < 18446744073709551616

instance : DecidablePred Event.wf := by
  intro e
  cases e <;> simp [Event.wf] <;> infer_instance

/-- Value of the source document's `installation.id` field for an encoded
event: present only on installation-scoped payloads. -/
def Event.sourceInstallId : Event → Option Nat
  | .Installation e => some e.installation.id
  | _ => none

/-! ## Hyper adapter (`src/ghhyper`) -/

/-- HTTP method as far as the pipeline inspects it. -/
inductive HttpMethod where
  | POST
  | GET
  | other
  deriving DecidableEq, Repr

/-- Final HTTP response of a request: status code and body text. -/
structure HttpResponse where
  status : Nat
  body : String
  deriving DecidableEq, Repr

/-- State of the `X-Hub-Signature-256` header on an inbound request:
absent, present but not convertible by `HeaderValue::to_str`, or a string. -/
inductive HeaderValue where
  | absent
  | invalid
  | value (s : String)
  deriving DecidableEq, Repr

/-- Inbound hyper request as `handle_request` consumes it: method, URI path,
signature header, and the outcome of collecting the body bytes (hyper
imposes no size ceiling on the collect). -/
structure HyperRequest where
  method : HttpMethod
  uriPath : String
  signatureHeader : HeaderValue
  body : Except String (List Nat)
  deriving Repr

/-- Hyper pipeline (`HyperWebhookHandler::handle_request`): 404 on wrong
method/path; 401 on a missing signature header, 400 on an unreadable one;
400 on a body read failure; 401 on failed signature verification; 400 on
invalid UTF-8 (`utf8` parameter, the std validation) or a parse failure
(`parse` parameter, instantiated with the two-pass parse over the
serde_json text layer); then the registered handler decides 200/500, or
200 with no handler. -/
def handle_request {T : Type} (hmacSha256 : List Nat → List Nat → List Nat)
    (utf8 : List Nat → Option String)
    (parse : String → Except OctoAppError (WebHook T))
    (config : OctoAppConfig) (path : String)
    (handler : Option (WebHook T → Except OctoAppError Unit))
    (req : HyperRequest) : HttpResponse :=
  if req.method ≠ HttpMethod.POST ∨ req.uriPath ≠ path then
    ⟨404, "Not Found"⟩
  else
    match req.signatureHeader with
    | .absent => ⟨401, "Missing X-Hub-Signature-256 header"⟩
    | .invalid => ⟨400, "Invalid signature header"⟩
    | .value signature =>
      match req.body with
      | .error _ => ⟨400, "Failed to read body"⟩
      | .ok body_bytes =>
        if ¬ config.webhook_signature_verification hmacSha256 body_bytes signature.toList then
          ⟨401, "Signature verification failed"⟩
        else
          match utf8 body_bytes with
          | none => ⟨400, "Invalid UTF-8"⟩
          | some body_str =>
            match parse body_str with
            | .error _ => ⟨400, "Invalid webhook payload"⟩
            | .ok webhook =>
              match handler with
              | some h =>
                match h webhook with
                | .ok _ => ⟨200, "OK"⟩
                | .error _ => ⟨500, "Internal server error"⟩
              | none => ⟨200, "OK"⟩

/-- Error-to-response helper of the hyper module
(`src/ghhyper/errors.rs::error_to_response`). -/
def error_to_response (error : OctoAppError) : HttpResponse :=
  match error with
  | .SignatureError _ => ⟨401, "Unauthorized"⟩
  | .LimitExceeded => ⟨413, "Payload too large"⟩
  | .IoError _ => ⟨500, "IO error"⟩
  | _ => ⟨400, "Bad request"⟩

/-! ## Rocket adapter (`src/ghrocket.rs`) -/

/-- Inbound rocket request as the `FromData` guard consumes it: the
`X-Hub-Signature-256` header, the configured `json` data limit in bytes,
and the body stream (an IO error or the full body text; the read is
complete exactly when the body fits the limit). -/
structure RocketRequest where
  signatureHeader : Option String
  jsonLimit : Nat
  body : Except String String
  deriving Repr

/-- Guard outcome: a parsed webhook, or a rejection status paired with the
error handed to rocket's catcher. -/
inductive Outcome (T : Type) where
  | success (v : WebHook T)
  | error (status : Nat) (e : OctoAppError)
  deriving DecidableEq, Repr

/-- Inner rocket reader (`WebHook::from_data`): open the body under the
`json` limit (`into_string`), failing with `IoError` on a read error and
`LimitExceeded` on an incomplete (truncated) read; then verify the
signature over the body bytes, failing with `SignatureError`; then run the
two-pass parse (`from_str`, its text-level serde passes abstracted as the
`extractId`/`d` parameters). -/
def WebHook.from_data {T : Type} (hmacSha256 : List Nat → List Nat → List Nat)
    (extractId : String → Option Nat) (d : String → Except String T)
    (config : OctoAppConfig) (req : RocketRequest) (signature : String) :
    Except OctoAppError (WebHook T) :=
  match req.body with
  | .error e => .error (.IoError e)
  | .ok s =>
    if utf8Len s > req.jsonLimit then
      .error .LimitExceeded
    else if ¬ config.webhook_signature_verification hmacSha256 (strBytes s) signature.toList then
      .error (.SignatureError "Failed to validate the request signature")
    else
      WebHook.from_str extractId d s

/-- Rocket data guard (`impl FromData for WebHook<T>`): a missing
`X-Hub-Signature-256` header is rejected with status 401 Unauthorized;
any error from the inner reader — signature failure, exceeded limit, read
error, parse error — is rejected with status 400 Bad Request. -/
def WebHook.from_data_guard {T : Type} (hmacSha256 : List Nat → List Nat → List Nat)
    (extractId : String → Option Nat) (d : String → Except String T)
    (config : OctoAppConfig) (req : RocketRequest) : Outcome T :=
  match req.signatureHeader with
  | none => .error 401 (.SignatureError "Missing X-Hub-Signature-256 header")
  | some signature =>
    match WebHook.from_data hmacSha256 extractId d config req signature with
    | .ok value => .success value
    | .error e => .error 400 e

/-! ## Shared sample values and helper lemmas -/

/-- Sample configuration mirroring the crate's own unit test. -/
def sampleSecretConfig : OctoAppConfig :=
  { app_name := none, app_id := 12345, client_id := some "client_id",
    client_secret := some "client_secret", client_key := none,
    webhook_secret := some "ThisIsASecret" }

/-- Sample configuration with no webhook secret configured. -/
def noSecretConfig : OctoAppConfig :=
  { app_name := none, app_id := 1, client_id := none, client_secret := none,
    client_key := none, webhook_secret := none }

/-- Placeholder MAC used to instantiate the abstract HMAC parameter in
concrete evaluations whose outcome does not depend on the digest. -/
def dummyHmac : List Nat → List Nat → List Nat := fun _ _ => []

theorem isPrefixOf_append_self {α : Type} [BEq α] [LawfulBEq α] :
    ∀ (l r : List α), l.isPrefixOf (l ++ r) = true
  | [], _ => by simp [List.isPrefixOf]
  | a :: as, r => by simp [List.isPrefixOf, isPrefixOf_append_self as r]

/-! ## Claim theorems -/

/-- C1: for every configuration with a webhook secret set and every body,
verifying `"sha256=" ++ lowercase-hex(HMAC-SHA256(secret, body))` against
that body succeeds, for any HMAC primitive. -/
theorem c1_signature_roundtrip_verifies
    (hmacSha256 : List Nat → List Nat → List Nat) (config : OctoAppConfig)
    (secret : String) (body : List Nat)
    (h : config.webhook_secret = some secret) :
    config.webhook_signature_verification hmacSha256 body
      ("sha256=".toList ++ hexEncode (hmacSha256 (strBytes secret) body)) = true := by
  have hpre : "sha256=".toList.isPrefixOf
      ("sha256=".toList ++ hexEncode (hmacSha256 (strBytes secret) body)) = true :=
    isPrefixOf_append_self _ _
  have hdrop : ("sha256=".toList ++ hexEncode (hmacSha256 (strBytes secret) body)).drop 7
      = hexEncode (hmacSha256 (strBytes secret) body) := rfl
  simp [OctoAppConfig.webhook_signature_verification, h, hpre, hdrop]

theorem c1_signature_roundtrip_verifies_witness :
    sampleSecretConfig.webhook_secret = some "ThisIsASecret" ∧
    sampleSecretConfig.webhook_signature_verification dummyHmac
      (strBytes "Hello, World!")
      ("sha256=".toList ++
        hexEncode (dummyHmac (strBytes "ThisIsASecret") (strBytes "Hello, World!"))) = true :=
  ⟨rfl, c1_signature_roundtrip_verifies dummyHmac sampleSecretConfig
    "ThisIsASecret" (strBytes "Hello, World!") rfl⟩

/-- C2: verification returns false — it is a total boolean function, so it
neither errors nor panics — whenever no webhook secret is configured or the
presented value does not start with the literal `sha256=`. -/
theorem c2_verify_false_without_secret_or_prefixed_signature
    (hmacSha256 : List Nat → List Nat → List Nat) (config : OctoAppConfig)
    (data : List Nat) (signature : List Char)
    (h : config.webhook_secret = none ∨
      "sha256=".toList.isPrefixOf signature = false) :
    config.webhook_signature_verification hmacSha256 data signature = false := by
  cases h with
  | inl h => simp [OctoAppConfig.webhook_signature_verification, h]
  | inr h =>
    cases hsec : config.webhook_secret with
    | none => simp [OctoAppConfig.webhook_signature_verification, hsec]
    | some s =>
      have h' : (['s', 'h', 'a', '2', '5', '6', '='] : List Char).isPrefixOf signature
          = false := h
      have h2 : ¬ ((['s', 'h', 'a', '2', '5', '6', '='] : List Char) <+: signature) := by
        intro hp
        obtain ⟨t, rfl⟩ := hp
        simp [isPrefixOf_append_self] at h'
      simp [OctoAppConfig.webhook_signature_verification, hsec, h2]

theorem c2_verify_false_without_secret_or_prefixed_signature_witness :
    (noSecretConfig.webhook_secret = none ∨
      "sha256=".toList.isPrefixOf "payload".toList = false) ∧
    noSecretConfig.webhook_signature_verification dummyHmac [1, 2, 3]
      "payload".toList = false :=
  ⟨Or.inl rfl, c2_verify_false_without_secret_or_prefixed_signature
    dummyHmac noSecretConfig [1, 2, 3] "payload".toList (Or.inl rfl)⟩

/-- C9: the Display output of a configuration is a function of the app name
and app id alone; any two configurations agreeing on those, whatever their
secret fields, render identically. -/
theorem c9_display_independent_of_secrets (a b : OctoAppConfig)
    (hn : a.app_name = b.app_name) (hi : a.app_id = b.app_id) :
    a.display = b.display := by
  simp [OctoAppConfig.display, hn, hi]

theorem c9_display_independent_of_secrets_witness :
    ({ app_name := some "My App", app_id := 7, client_id := some "idA",
       client_secret := some "secA", client_key := some ⟨"keyA"⟩,
       webhook_secret := some "hookA" } : OctoAppConfig).display
      = ({ app_name := some "My App", app_id := 7, client_id := some "idB",
           client_secret := some "secB", client_key := some ⟨"keyB"⟩,
           webhook_secret := some "hookB" } : OctoAppConfig).display ∧
    (some "secA" : Option String) ≠ some "secB" :=
  ⟨c9_display_independent_of_secrets _ _ rfl rfl, by decide⟩

/-- C10: when both an inline key string and a key-file path are supplied,
the build reads the key from the file path and ignores the inline key: the
result equals the build with the inline key absent, and the resolved key is
the PEM-parse of the file's contents. -/
theorem c10_key_path_wins_over_inline_key
    (readFile : String → Except String String)
    (pem : String → Except String EncodingKey)
    (b : OctoAppConfigBuilder) (p : String)
    (h : b.client_key_path = some p) :
    b.tryFrom readFile pem
        = OctoAppConfigBuilder.tryFrom readFile pem { b with client_key := none } ∧
    ∀ contents k, readFile p = .ok contents → pem contents = .ok k →
      resolveClientKey readFile pem b = .ok (some k) := by
  constructor
  · simp [OctoAppConfigBuilder.tryFrom, resolveClientKey, h]
  · intro contents k hr hk
    simp [resolveClientKey, h, hr, hk]

theorem c10_key_path_wins_over_inline_key_witness :
    ({ app_id := some 9, client_key := some "INLINE",
       client_key_path := some "key.pem" } : OctoAppConfigBuilder).client_key_path
      = some "key.pem" ∧
    ({ app_id := some 9, client_key := some "INLINE",
       client_key_path := some "key.pem" } : OctoAppConfigBuilder).tryFrom
        (fun _ => .ok "PEMDATA") (fun s => .ok ⟨s⟩)
      = OctoAppConfigBuilder.tryFrom (fun _ => .ok "PEMDATA") (fun s => .ok ⟨s⟩)
          { app_id := some 9, client_key := none, client_key_path := some "key.pem" } ∧
    resolveClientKey (fun _ => .ok "PEMDATA") (fun s => .ok ⟨s⟩)
      { app_id := some 9, client_key := some "INLINE", client_key_path := some "key.pem" }
      = .ok (some ⟨"PEMDATA"⟩) := by
  refine ⟨rfl, ?_, ?_⟩
  · exact (c10_key_path_wins_over_inline_key _ _ _ "key.pem" rfl).1
  · exact (c10_key_path_wins_over_inline_key _ _ _ "key.pem" rfl).2 "PEMDATA" ⟨"PEMDATA"⟩ rfl rfl

/-- C8 (amended): with the app id present and the key fields resolving, the
build fails with `WebhookSecretError` when the supplied webhook secret is
shorter than 8 UTF-8 bytes, succeeds with exactly the too-short warning when
its byte length is in [8,16), succeeds with no warning at 16 bytes or more,
and imposes no length condition when no secret is supplied. -/
theorem c8_secret_byte_length_validation
    (readFile : String → Except String String)
    (pem : String → Except String EncodingKey)
    (b : OctoAppConfigBuilder) (appId : Nat) (ck : Option EncodingKey)
    (hid : b.app_id = some appId)
    (hkey : resolveClientKey readFile pem b = .ok ck) :
    (∀ s, b.webhook_secret = some s → utf8Len s < 8 →
      b.tryFrom readFile pem = .error (.WebhookSecretError
        ("Webhook secret is less than 8 characters: " ++ toString (utf8Len s)))) ∧
    (∀ s, b.webhook_secret = some s → 8 ≤ utf8Len s → utf8Len s < 16 →
      b.tryFrom readFile pem = .ok
        ({ app_name := b.app_name, app_id := appId, client_id := b.client_id,
           client_secret := b.client_secret, client_key := ck,
           webhook_secret := some s },
         ["Webhook secret is less than 16 characters"])) ∧
    (∀ s, b.webhook_secret = some s → 16 ≤ utf8Len s →
      b.tryFrom readFile pem = .ok
        ({ app_name := b.app_name, app_id := appId, client_id := b.client_id,
           client_secret := b.client_secret, client_key := ck,
           webhook_secret := some s }, [])) ∧
    (b.webhook_secret = none →
      b.tryFrom readFile pem = .ok
        ({ app_name := b.app_name, app_id := appId, client_id := b.client_id,
           client_secret := b.client_secret, client_key := ck,
           webhook_secret := none }, [])) := by
  refine ⟨?_, ?_, ?_, ?_⟩
  · intro s hs hlen
    simp [OctoAppConfigBuilder.tryFrom, hkey, hs, hlen]
  · intro s hs hlow hhigh
    simp [OctoAppConfigBuilder.tryFrom, hkey, hs, hid, Nat.not_lt.mpr hlow, hhigh]
  · intro s hs hlow
    have h8 : ¬ utf8Len s < 8 := by omega
    have h16 : ¬ utf8Len s < 16 := by omega
    simp [OctoAppConfigBuilder.tryFrom, hkey, hs, hid, h8, h16]
  · intro hs
    simp [OctoAppConfigBuilder.tryFrom, hkey, hs, hid]

theorem c8_secret_byte_length_validation_witness :
    ({ app_id := some 3, webhook_secret := some "short-sec" } :
        OctoAppConfigBuilder).app_id = some 3 ∧
    resolveClientKey (fun _ => .error "no fs") (fun _ => .error "no pem")
      { app_id := some 3, webhook_secret := some "short-sec" } = .ok none ∧
    8 ≤ utf8Len "short-sec" ∧ utf8Len "short-sec" < 16 ∧
    OctoAppConfigBuilder.tryFrom (fun _ => .error "no fs") (fun _ => .error "no pem")
      { app_id := some 3, webhook_secret := some "short-sec" }
      = .ok ({ app_name := none, app_id := 3, client_id := none,
               client_secret := none, client_key := none,
               webhook_secret := some "short-sec" },
             ["Webhook secret is less than 16 characters"]) := by
  refine ⟨rfl, rfl, by decide, by decide, ?_⟩
  exact (c8_secret_byte_length_validation (fun _ => .error "no fs")
      (fun _ => .error "no pem")
      { app_id := some 3, webhook_secret := some "short-sec" } 3 none rfl rfl).2.1
    "short-sec" rfl (by decide) (by decide)

theorem c8_secret_byte_length_validation_counterexample :
    "ééééé".toList.length < 8 ∧
    OctoAppConfigBuilder.tryFrom (fun _ => .error "no fs") (fun _ => .error "no pem")
      { app_id := some 1, webhook_secret := some "ééééé" }
      = .ok ({ app_name := none, app_id := 1, client_id := none,
               client_secret := none, client_key := none,
               webhook_secret := some "ééééé" },
             ["Webhook secret is less than 16 characters"]) := by
  constructor
  · decide
  · rfl

/-- C3 (amended): on a POST to the webhook path, the Hyper adapter responds
401 both when the `X-Hub-Signature-256` header is absent and when signature
verification of the body fails; the Rocket data guard rejects a missing
header with status 401 but rejects a failed signature verification with
status 400 Bad Request. -/
theorem c3_unauthorized_status_mapping :
    (∀ (T : Type) (hmacSha256 : List Nat → List Nat → List Nat)
        (utf8 : List Nat → Option String)
        (parse : String → Except OctoAppError (WebHook T))
        (config : OctoAppConfig) (path : String)
        (handler : Option (WebHook T → Except OctoAppError Unit))
        (req : HyperRequest),
      req.method = HttpMethod.POST → req.uriPath = path →
      req.signatureHeader = .absent →
      handle_request hmacSha256 utf8 parse config path handler req
        = ⟨401, "Missing X-Hub-Signature-256 header"⟩) ∧
    (∀ (T : Type) (hmacSha256 : List Nat → List Nat → List Nat)
        (utf8 : List Nat → Option String)
        (parse : String → Except OctoAppError (WebHook T))
        (config : OctoAppConfig) (path : String)
        (handler : Option (WebHook T → Except OctoAppError Unit))
        (req : HyperRequest) (s : String) (bytes : List Nat),
      req.method = HttpMethod.POST → req.uriPath = path →
      req.signatureHeader = .value s → req.body = .ok bytes →
      config.webhook_signature_verification hmacSha256 bytes s.toList = false →
      handle_request hmacSha256 utf8 parse config path handler req
        = ⟨401, "Signature verification failed"⟩) ∧
    (∀ (T : Type) (hmacSha256 : List Nat → List Nat → List Nat)
        (extractId : String → Option Nat) (d : String → Except String T)
        (config : OctoAppConfig) (req : RocketRequest),
      req.signatureHeader = none →
      WebHook.from_data_guard hmacSha256 extractId d config req
        = .error 401 (.SignatureError "Missing X-Hub-Signature-256 header")) ∧
    (∀ (T : Type) (hmacSha256 : List Nat → List Nat → List Nat)
        (extractId : String → Option Nat) (d : String → Except String T)
        (config : OctoAppConfig) (req : RocketRequest) (sig s : String),
      req.signatureHeader = some sig → req.body = .ok s →
      utf8Len s ≤ req.jsonLimit →
      config.webhook_signature_verification hmacSha256 (strBytes s) sig.toList = false →
      WebHook.from_data_guard hmacSha256 extractId d config req
        = .error 400 (.SignatureError "Failed to validate the request signature")) := by
  refine ⟨?_, ?_, ?_, ?_⟩
  · intro T hmacSha256 utf8 parse config path handler req hm hp hh
    simp [handle_request, hm, hp, hh]
  · intro T hmacSha256 utf8 parse config path handler req s bytes hm hp hh hb hv
    have hv' : config.webhook_signature_verification hmacSha256 bytes s.data = false := hv
    simp [handle_request, hm, hp, hh, hb, hv']
  · intro T hmacSha256 extractId d config req hh
    simp [WebHook.from_data_guard, hh]
  · intro T hmacSha256 extractId d config req sig s hh hb hlim hv
    have hv' : config.webhook_signature_verification hmacSha256 (strBytes s) sig.data
        = false := hv
    simp [WebHook.from_data_guard, WebHook.from_data, hh, hb,
      Nat.not_lt.mpr hlim, hv']

theorem c3_unauthorized_status_mapping_witness :
    handle_request dummyHmac (fun _ => none)
        (fun _ => (.error .UnknownError : Except OctoAppError (WebHook Unit)))
        sampleSecretConfig "/" none ⟨.POST, "/", .absent, .ok []⟩
      = ⟨401, "Missing X-Hub-Signature-256 header"⟩ ∧
    WebHook.from_data_guard dummyHmac (fun _ => none)
        (fun _ => (.error "parse" : Except String Unit))
        sampleSecretConfig ⟨none, 1000, .ok "{}"⟩
      = .error 401 (.SignatureError "Missing X-Hub-Signature-256 header") :=
  ⟨c3_unauthorized_status_mapping.1 Unit dummyHmac (fun _ => none)
      (fun _ => .error .UnknownError) sampleSecretConfig "/" none
      ⟨.POST, "/", .absent, .ok []⟩ rfl rfl rfl,
   c3_unauthorized_status_mapping.2.2.1 Unit dummyHmac (fun _ => none)
      (fun _ => .error "parse") sampleSecretConfig ⟨none, 1000, .ok "{}"⟩ rfl⟩

theorem c3_unauthorized_status_mapping_counterexample :
    WebHook.from_data_guard dummyHmac (fun _ => none)
        (fun _ => (.error "parse" : Except String Unit))
        sampleSecretConfig ⟨some "sha256=00", 1000, .ok "{}"⟩
      = .error 400 (.SignatureError "Failed to validate the request signature") ∧
    (400 : Nat) ≠ 401 := by
  exact ⟨rfl, by decide⟩

/-- C4 (amended): a body exceeding the configured `json` limit makes the
Rocket data guard fail with `LimitExceeded`, rejected with status 400 Bad
Request (not 413); the Hyper pipeline imposes no body-size ceiling and
never responds 413; the hyper module's `error_to_response` helper — not
invoked by the pipeline — maps `LimitExceeded` to 413 Payload Too Large. -/
theorem c4_payload_too_large_mapping :
    (∀ (T : Type) (hmacSha256 : List Nat → List Nat → List Nat)
        (extractId : String → Option Nat) (d : String → Except String T)
        (config : OctoAppConfig) (req : RocketRequest) (sig s : String),
      req.signatureHeader = some sig → req.body = .ok s →
      req.jsonLimit < utf8Len s →
      WebHook.from_data_guard hmacSha256 extractId d config req
        = .error 400 .LimitExceeded) ∧
    (∀ (T : Type) (hmacSha256 : List Nat → List Nat → List Nat)
        (utf8 : List Nat → Option String)
        (parse : String → Except OctoAppError (WebHook T))
        (config : OctoAppConfig) (path : String)
        (handler : Option (WebHook T → Except OctoAppError Unit))
        (req : HyperRequest),
      (handle_request hmacSha256 utf8 parse config path handler req).status ≠ 413) ∧
    error_to_response .LimitExceeded = ⟨413, "Payload too large"⟩ := by
  refine ⟨?_, ?_, rfl⟩
  · intro T hmacSha256 extractId d config req sig s hh hb hlim
    simp [WebHook.from_data_guard, WebHook.from_data, hh, hb, hlim]
  · intro T hmacSha256 utf8 parse config path handler req
    unfold handle_request
    repeat' split
    all_goals decide

theorem c4_payload_too_large_mapping_witness :
    WebHook.from_data_guard dummyHmac (fun _ => none)
        (fun _ => (.error "parse" : Except String Unit))
        sampleSecretConfig ⟨some "sha256=00", 2, .ok "0123456789"⟩
      = .error 400 .LimitExceeded ∧
    error_to_response .LimitExceeded = ⟨413, "Payload too large"⟩ :=
  ⟨c4_payload_too_large_mapping.1 Unit dummyHmac (fun _ => none)
      (fun _ => .error "parse") sampleSecretConfig
      ⟨some "sha256=00", 2, .ok "0123456789"⟩ "sha256=00" "0123456789"
      rfl rfl (by decide),
   c4_payload_too_large_mapping.2.2⟩

theorem c4_payload_too_large_mapping_counterexample :
    WebHook.from_data_guard dummyHmac (fun _ => none)
        (fun _ => (.error "parse" : Except String Unit))
        sampleSecretConfig ⟨some "sha256=00", 1, .ok "abcdef"⟩
      = .error 400 .LimitExceeded ∧
    (400 : Nat) ≠ 413 := by
  exact ⟨rfl, by decide⟩

/-- Ping-shaped document without an installation object. -/
def pingDocNoInstall : Json :=
  .obj [("zen", .str "Design for failure."), ("hook_id", .num 1)]

/-- The same ping-shaped document with `installation.id` present. -/
def pingDocWithInstall : Json :=
  .obj [("zen", .str "Design for failure."), ("hook_id", .num 1),
    ("installation", .obj [("id", .num 7)])]

/-- Document matching none of the event variant shapes. -/
def junkDoc : Json := .obj [("foo", .num 1)]

/-- C5: when the narrow `installation.id` decode fails, the two-pass parse
(both the hyper and the rocket copy) does not fail on that account — the id
defaults to 0 and the payload is exactly the full decode of the same
document, just as it is when the id is present; concretely, a ping document
resolves to the same payload with and without `installation.id`. -/
theorem c5_missing_installation_id_defaults_to_zero :
    (∀ (T : Type) (d : Json → Except String T) (j : Json),
      extractInstallId j = none →
      parse_webhook extractInstallId d j
        = ((d j).map fun v => WebHook.mk v 0).mapError .JsonSerializationError) ∧
    (∀ (T : Type) (d : Json → Except String T) (j : Json),
      extractInstallId j = none →
      WebHook.from_str extractInstallId d j
        = ((d j).map fun v => WebHook.mk v 0).mapError .JsonSerializationError) ∧
    (∀ (T : Type) (d : Json → Except String T) (j : Json) (n : Nat),
      extractInstallId j = some n →
      parse_webhook extractInstallId d j
        = ((d j).map fun v => WebHook.mk v n).mapError .JsonSerializationError) ∧
    (parse_webhook extractInstallId decodeEvent pingDocNoInstall
        = .ok ⟨.Ping ⟨"Design for failure.", 1⟩, 0⟩ ∧
      parse_webhook extractInstallId decodeEvent pingDocWithInstall
        = .ok ⟨.Ping ⟨"Design for failure.", 1⟩, 7⟩) := by
  refine ⟨?_, ?_, ?_, rfl, rfl⟩
  · intro T d j h
    cases hd : d j <;> simp [parse_webhook, h, hd, Except.map, Except.mapError]
  · intro T d j h
    cases hd : d j <;> simp [WebHook.from_str, h, hd, Except.map, Except.mapError]
  · intro T d j n h
    cases hd : d j <;> simp [parse_webhook, h, hd, Except.map, Except.mapError]

theorem c5_missing_installation_id_defaults_to_zero_witness :
    extractInstallId pingDocNoInstall = none ∧
    parse_webhook extractInstallId decodeEvent pingDocNoInstall
      = ((decodeEvent pingDocNoInstall).map fun v => WebHook.mk v 0).mapError
          .JsonSerializationError :=
  ⟨rfl, c5_missing_installation_id_defaults_to_zero.1 Event decodeEvent
    pingDocNoInstall rfl⟩

/-- C6: a document whose payload decode matches no variant makes the parse
return a `JsonSerializationError` and never a success envelope; the modelled
taxonomy decode indeed rejects a junk document with serde's untagged-enum
error. -/
theorem c6_no_variant_match_is_an_error :
    (∀ (T : Type) (d : Json → Except String T) (j : Json) (e : String),
      d j = .error e →
      parse_webhook extractInstallId d j = .error (.JsonSerializationError e) ∧
      ∀ w, parse_webhook extractInstallId d j ≠ .ok w) ∧
    decodeEvent junkDoc
      = .error "data did not match any variant of untagged enum Event" := by
  refine ⟨?_, rfl⟩
  intro T d j e h
  refine ⟨by simp [parse_webhook, h], ?_⟩
  intro w hw
  simp [parse_webhook, h] at hw

theorem c6_no_variant_match_is_an_error_witness :
    parse_webhook extractInstallId decodeEvent junkDoc
      = .error (.JsonSerializationError
          "data did not match any variant of untagged enum Event") :=
  (c6_no_variant_match_is_an_error.1 Event decodeEvent junkDoc
    "data did not match any variant of untagged enum Event" rfl).1

theorem asU64_natCast (n : Nat) (h : n < 18446744073709551616) :
    asU64 (.num (n : Int)) = some n := by
  show asU64 (.num (.ofNat n)) = some n
  simp [asU64, h]

/-- C7: serializing any well-formed event of the modelled taxonomy and
parsing the result through the envelope parser returns exactly the original
payload, with an installation id equal to the document's `installation.id`
when the payload carries one and 0 when absent. -/
theorem c7_encode_parse_roundtrip (e : Event) (hwf : e.wf) :
    parse_webhook extractInstallId decodeEvent (encodeEvent e)
      = .ok ⟨e, e.sourceInstallId.getD 0⟩ ∧
    extractInstallId (encodeEvent e) = e.sourceInstallId := by
  cases e with
  | Create c =>
    have hA : decodeCreateEvent (encodeEvent (.Create c)) = some c := rfl
    have hev : decodeEvent (encodeEvent (.Create c)) = .ok (.Create c) := by
      simp [decodeEvent, hA]
    have hex : extractInstallId (encodeEvent (.Create c)) = none := rfl
    exact ⟨by simp [parse_webhook, hex, hev, Event.sourceInstallId], hex⟩
  | Installation i =>
    have hb : i.installation.id < 18446744073709551616 := hwf
    have hA : decodeCreateEvent (encodeEvent (.Installation i)) = none := rfl
    have hIns : jLookup (encodeEvent (.Installation i)) "installation"
        = some (Json.obj [("id", Json.num (i.installation.id : Int))]) := rfl
    have hAct : jLookup (encodeEvent (.Installation i)) "action" >>= asString
        = some i.action := rfl
    have hid : jLookup (Json.obj [("id", Json.num (i.installation.id : Int))]) "id"
        = some (Json.num (i.installation.id : Int)) := rfl
    have hdec : decodeInstallation (Json.obj [("id", Json.num (i.installation.id : Int))])
        = some i.installation := by
      simp [decodeInstallation, hid, asU64_natCast _ hb]
    have hB : decodeInstallationEvent (encodeEvent (.Installation i)) = some i := by
      simp [decodeInstallationEvent, hAct, hIns, Option.bind, hdec]
    have hev : decodeEvent (encodeEvent (.Installation i)) = .ok (.Installation i) := by
      simp [decodeEvent, hA, hB]
    have hex : extractInstallId (encodeEvent (.Installation i))
        = some i.installation.id := by
      simp [extractInstallId, hIns, Option.bind, hid, asU64_natCast _ hb]
    exact ⟨by simp [parse_webhook, hex, hev, Event.sourceInstallId], hex⟩
  | Ping p =>
    have hb : p.hook_id < 18446744073709551616 := hwf
    have hA : decodeCreateEvent (encodeEvent (.Ping p)) = none := rfl
    have hB : decodeInstallationEvent (encodeEvent (.Ping p)) = none := rfl
    have hzen : jLookup (encodeEvent (.Ping p)) "zen" >>= asString = some p.zen := rfl
    have hhook : jLookup (encodeEvent (.Ping p)) "hook_id" >>= asU64
        = asU64 (Json.num (p.hook_id : Int)) := rfl
    have hC : decodePingEvent (encodeEvent (.Ping p)) = some p := by
      simp [decodePingEvent, hzen, hhook, asU64_natCast _ hb]
    have hev : decodeEvent (encodeEvent (.Ping p)) = .ok (.Ping p) := by
      simp [decodeEvent, hA, hB, hC]
    have hex : extractInstallId (encodeEvent (.Ping p)) = none := rfl
    exact ⟨by simp [parse_webhook, hex, hev, Event.sourceInstallId], hex⟩

theorem c7_encode_parse_roundtrip_witness :
    (Event.Installation ⟨"created", ⟨7⟩⟩).wf ∧
    parse_webhook extractInstallId decodeEvent
        (encodeEvent (.Installation ⟨"created", ⟨7⟩⟩))
      = .ok ⟨.Installation ⟨"created", ⟨7⟩⟩, 7⟩ ∧
    extractInstallId (encodeEvent (.Installation ⟨"created", ⟨7⟩⟩)) = some 7 := by
  refine ⟨by decide, ?_, ?_⟩
  · exact (c7_encode_parse_roundtrip (.Installation ⟨"created", ⟨7⟩⟩) (by decide)).1
  · exact (c7_encode_parse_roundtrip (.Installation ⟨"created", ⟨7⟩⟩) (by decide)).2

end OctoApp
